import Mathlib

/-!
Verification of the merge / graph-store / consistency core of the `ppl`
contact-management program, shallowly embedded in Lean 4.

Source files embedded here:
  * `ppl/models/contact.py`  (Contact, Related, compare_rev, merge_from)
  * `ppl/models/relationship.py` (Relationship)
  * `ppl/models/graph.py`    (ContactGraph: add/update/merge/remove,
                              add_relationship, the JSON and GraphML codecs)
  * `ppl/services/consistency.py` (ConsistencyService core comparison loops)

Modelling conventions:
  * Python `datetime` values are modelled by `Nat` via any order-preserving
    encoding; the code only stores, orders and equality-compares them.
  * Python `float` values (geo coordinates) are modelled by their IEEE-754
    bit pattern (`PyFloat`); the code only stores and compares them.
  * Python `dict`s are insertion-ordered association lists with unique keys;
    `d[k] = v` is `dictSet` (overwrite in place, else append).
  * Strings produced by `json.dumps v` / `datetime.isoformat d` are
    represented by the constructors `JValue.jdumpsStr v` / `JValue.jisoStr d`
    of the JSON value type: the constructor denotes the encoded string and
    `json.loads` / `datetime.fromisoformat` recover the payload, per the
    Python stdlib contract that these encodings are injective and decodable.
    `json.loads` applied to a string not produced by `json.dumps` is modelled
    as failing (the source's `except` fallback); no theorem below exercises
    that branch on a string whose text would in fact parse as JSON.
-/

namespace PPL

/-- A Python `float`, identified by its IEEE-754 bit pattern.  Geo
coordinates are only stored and compared for equality, never computed
with, so the bit-level identity is all the embedding needs. -/
structure PyFloat where
  bits : Nat
deriving DecidableEq

/-- A Python (naive) `datetime`, modelled by any order- and
equality-preserving encoding into `Nat`; the program only stores,
orders and equality-compares revision timestamps. -/
abbrev DateTime := Nat

/-- A JSON value as manipulated by the codecs.  `jdumpsStr v` is the
*string* `json.dumps(v)` and `jisoStr d` is the *string* `d.isoformat()`
(see the modelling conventions in the file header). -/
inductive JValue where
  | jnull : JValue
  | jbool (b : Bool) : JValue
  | jint (n : Int) : JValue
  | jfloat (x : PyFloat) : JValue
  | jstr (s : String) : JValue
  | jarr (xs : List JValue) : JValue
  | jobj (kvs : List (String × JValue)) : JValue
  | jdumpsStr (v : JValue) : JValue
  | jisoStr (d : DateTime) : JValue

/-- `isinstance(value, str)`: the string-kinded wire values. -/
def JValue.isString : JValue → Bool
  | .jstr _ => true
  | .jdumpsStr _ => true
  | .jisoStr _ => true
  | _ => false

/-- `isinstance(value, (list, dict))`. -/
def JValue.isListOrDict : JValue → Bool
  | .jarr _ => true
  | .jobj _ => true
  | _ => false

/-- `json.loads` applied to a string-kinded wire value: the dump of `v`
decodes back to `v`; other strings are modelled as failing to decode
(the source's `except (json.JSONDecodeError, TypeError)` branch). -/
def jsonLoads : JValue → Option JValue
  | .jdumpsStr v => some v
  | _ => none

/-- `datetime.fromisoformat` applied to a wire value: inverts
`isoformat`, anything else is modelled as raising (the source's
`except (ValueError, AttributeError)` branch). -/
def fromIso : JValue → Option DateTime
  | .jisoStr d => some d
  | _ => none

/-- Reading a wire value as a Python `str`.  Only `jstr` payloads are
ever read this way by the theorems below; the remaining string-kinded
constructors denote strings whose text the embedding does not compute,
and non-strings never reach this projection on the verified paths. -/
def JValue.asString : JValue → String
  | .jstr s => s
  | _ => ""

/-- Reading a decoded JSON array of strings as a Python list of `str`
(Python performs no conversion: the decoded list is used as-is; the
default branch is never exercised on the verified paths). -/
def JValue.asStringList : JValue → List String
  | .jarr xs => xs.map JValue.asString
  | _ => []

/-- Reading a decoded JSON number as the stored float (never exercised
on a non-float on the verified paths). -/
def JValue.asFloat : JValue → PyFloat
  | .jfloat x => x
  | _ => ⟨0⟩

/-- Reading a decoded JSON number as a Python int (never exercised on a
non-int on the verified paths). -/
def JValue.asInt : JValue → Int
  | .jint n => n
  | _ => 0

/-- `dict.get k` on a JSON object (first binding wins; objects produced
by the codecs have unique keys). -/
def jobjGet (kvs : List (String × JValue)) (k : String) : Option JValue :=
  (kvs.find? (fun p => p.1 = k)).map (·.2)

/-- The vCard RELATED property (`ppl/models/contact.py`, class `Related`). -/
structure Related where
  uri : String
  type : List String := []
  text_value : Option String := none
  pref : Option Int := none
deriving DecidableEq

/-- The contact entity (`ppl/models/contact.py`, class `Contact`).
`x_properties` and `clientpidmap` are open `str → Any` maps whose values
are only copied and compared by key; they are modelled as string-valued
association lists. -/
structure Contact where
  fn : String
  version : String := "4.0"
  uid : Option String := none
  n : Option String := none
  nickname : List String := []
  photo : Option String := none
  bday : Option String := none
  anniversary : Option String := none
  gender : Option String := none
  email : List String := []
  tel : List String := []
  impp : List String := []
  lang : List String := []
  adr : List String := []
  tz : Option String := none
  geo : Option (PyFloat × PyFloat) := none
  title : Option String := none
  role : Option String := none
  logo : Option String := none
  org : List String := []
  member : List String := []
  related : List Related := []
  categories : List String := []
  note : Option String := none
  prodid : Option String := none
  rev : Option DateTime := none
  sound : Option String := none
  clientpidmap : List (String × String) := []
  url : List String := []
  key : List String := []
  fburl : Option String := none
  caladruri : Option String := none
  caluri : Option String := none
  x_properties : List (String × String) := []
deriving DecidableEq

attribute [ext] Contact

/-- `Contact.compare_rev` (contact.py lines 76-96). -/
def compare_rev (self other : Contact) : Int :=
  match self.rev, other.rev with
  | none, none => 0
  | none, some _ => -1
  | some _, none => 1
  | some a, some b => if a < b then -1 else if b < a then 1 else 0

/-- One simple optional field of `merge_from` (contact.py lines 130-140;
the geo branch at lines 142-146 follows the same logic). -/
def mergeSimple {α : Type} (selfVal otherVal : Option α) (other_is_newer : Bool) : Option α :=
  match otherVal, selfVal with
  | some o, none => some o
  | some o, some s => if other_is_newer then some o else some s
  | none, s => s

/-- One list field of `merge_from` (contact.py lines 155-163):
`for item in other_list: if item not in self_list: self_list.append(item)`. -/
def mergeList {α : Type} [DecidableEq α] (selfList otherList : List α) : List α :=
  otherList.foldl (fun acc item => if item ∈ acc then acc else acc ++ [item]) selfList

/-- The relationship-reference merge of `merge_from` (contact.py lines
165-174).  `hasattr(r, 'uri')` is always true for the `Related`
dataclass, so every entry participates in the uri-keyed deduplication;
appended uris are added to the seen set. -/
def mergeRelated (selfRel otherRel : List Related) : List Related :=
  (otherRel.foldl
    (fun (acc : List Related × List String) r =>
      if r.uri ∈ acc.2 then acc else (acc.1 ++ [r], acc.2 ++ [r.uri]))
    (selfRel, selfRel.map (·.uri))).1

/-- One dict field of `merge_from` (contact.py lines 176-190): keys
absent from `self` are imported, keys present in both adopt `other`'s
value only when `other_is_newer`. -/
def mergeDict (selfD otherD : List (String × String)) (other_is_newer : Bool) : List (String × String) :=
  otherD.foldl
    (fun acc kv =>
      if acc.any (fun p => p.1 = kv.1) then
        if other_is_newer then acc.map (fun p => if p.1 = kv.1 then (p.1, kv.2) else p) else acc
      else acc ++ [kv])
    selfD

/-- The final REV update of `merge_from` (contact.py lines 192-195). -/
def mergeRev (selfRev otherRev : Option DateTime) : Option DateTime :=
  match otherRev with
  | none => selfRev
  | some o =>
      match selfRev with
      | none => some o
      | some s => if o > s then some o else some s

/-- `Contact.merge_from` (contact.py lines 98-197), as the pure function
from `(self, other, prefer_newer)` to the mutated `self`. -/
def merge_from (self other : Contact) (prefer_newer : Bool := true) : Contact :=
  let other_is_newer : Bool := prefer_newer && decide (compare_rev self other < 0)
  { self with
    n := mergeSimple self.n other.n other_is_newer
    photo := mergeSimple self.photo other.photo other_is_newer
    bday := mergeSimple self.bday other.bday other_is_newer
    anniversary := mergeSimple self.anniversary other.anniversary other_is_newer
    gender := mergeSimple self.gender other.gender other_is_newer
    tz := mergeSimple self.tz other.tz other_is_newer
    title := mergeSimple self.title other.title other_is_newer
    role := mergeSimple self.role other.role other_is_newer
    logo := mergeSimple self.logo other.logo other_is_newer
    note := mergeSimple self.note other.note other_is_newer
    prodid := mergeSimple self.prodid other.prodid other_is_newer
    sound := mergeSimple self.sound other.sound other_is_newer
    fburl := mergeSimple self.fburl other.fburl other_is_newer
    caladruri := mergeSimple self.caladruri other.caladruri other_is_newer
    caluri := mergeSimple self.caluri other.caluri other_is_newer
    geo := mergeSimple self.geo other.geo other_is_newer
    nickname := mergeList self.nickname other.nickname
    email := mergeList self.email other.email
    tel := mergeList self.tel other.tel
    impp := mergeList self.impp other.impp
    lang := mergeList self.lang other.lang
    adr := mergeList self.adr other.adr
    org := mergeList self.org other.org
    member := mergeList self.member other.member
    categories := mergeList self.categories other.categories
    url := mergeList self.url other.url
    key := mergeList self.key other.key
    related := mergeRelated self.related other.related
    x_properties := mergeDict self.x_properties other.x_properties other_is_newer
    clientpidmap := mergeDict self.clientpidmap other.clientpidmap other_is_newer
    rev := mergeRev self.rev other.rev }

/-- A directed edge of the NetworkX `DiGraph` (graph.py): the attribute
dict set by `add_relationship` / restored by the loaders, holding the
dynamically-typed values `types`, `directional`, `metadata`. -/
structure Edge where
  src : String
  dst : String
  types : JValue
  directional : JValue
  metadata : JValue

/-- The `ContactGraph` state (graph.py lines 21-24): the `_contacts`
insertion-ordered dict, and the NetworkX `DiGraph`'s node and edge sets.
(The redundant `contact=` node attribute, always kept equal to the
`_contacts` entry by every operation, is not duplicated here.) -/
structure ContactGraph where
  contacts : List (String × Contact)
  nodes : List String
  edges : List Edge

/-- Python dict assignment `d[k] = v`: overwrite in place if the key is
present, else append. -/
def dictSet {α : Type} (d : List (String × α)) (k : String) (v : α) : List (String × α) :=
  if d.any (fun p => p.1 = k) then d.map (fun p => if p.1 = k then (k, v) else p)
  else d ++ [(k, v)]

/-- Python dict lookup `d.get(k)`. -/
def dictGet {α : Type} (d : List (String × α)) (k : String) : Option α :=
  (d.find? (fun p => p.1 = k)).map (·.2)

/-- `nx.DiGraph.add_node` (idempotent on the node set). -/
def addNode (nodes : List String) (u : String) : List String :=
  if u ∈ nodes then nodes else nodes ++ [u]

/-- `nx.DiGraph.add_edge`: at most one edge per `(source, target)`;
re-adding replaces the attributes and auto-inserts missing endpoints. -/
def addEdge (g : ContactGraph) (e : Edge) : ContactGraph :=
  { g with
    nodes := addNode (addNode g.nodes e.src) e.dst
    edges :=
      if g.edges.any (fun e0 => e0.src = e.src ∧ e0.dst = e.dst) then
        g.edges.map (fun e0 => if e0.src = e.src ∧ e0.dst = e.dst then e else e0)
      else g.edges ++ [e] }

/-- Python truthiness of the optional `uid` string (`if not contact.uid`). -/
def truthyUid : Option String → Bool
  | none => false
  | some s => s ≠ ""

/-- `ContactGraph.get_contact` (graph.py lines 104-114). -/
def get_contact (g : ContactGraph) (uid : String) : Option Contact :=
  dictGet g.contacts uid

/-- `ContactGraph.add_contact` (graph.py lines 26-40): raises when the
uid is missing/empty, otherwise assigns `_contacts[uid]` (silently
overwriting any entry already there) and adds the graph node. -/
def add_contact (g : ContactGraph) (c : Contact) : Except String ContactGraph :=
  match c.uid with
  | none => .error "Contact must have a UID to be added to graph"
  | some u =>
      if u = "" then .error "Contact must have a UID to be added to graph"
      else .ok { g with contacts := dictSet g.contacts u c, nodes := addNode g.nodes u }

/-- `ContactGraph.update_contact` (graph.py lines 42-59). -/
def update_contact (g : ContactGraph) (c : Contact) : Except String ContactGraph :=
  match c.uid with
  | none => .error "Contact must have a UID to be updated"
  | some u =>
      if u = "" then .error "Contact must have a UID to be updated"
      else if (g.contacts.any (fun p => p.1 = u)) then
        .ok { g with contacts := dictSet g.contacts u c }
      else .error ("Contact with UID " ++ u ++ " not found in graph")

/-- `ContactGraph.merge_contact` (graph.py lines 61-102). -/
def merge_contact (g : ContactGraph) (c : Contact) : Except String (ContactGraph × Bool × String) :=
  match c.uid with
  | none => .error "Contact must have a UID to be merged"
  | some u =>
      if u = "" then .error "Contact must have a UID to be merged"
      else
        match get_contact g u with
        | none => (add_contact g c).map (fun g2 => (g2, true, "added"))
        | some existing =>
            if compare_rev existing c > 0 then .ok (g, false, "skipped")
            else
              let merged := merge_from existing c true
              (update_contact g merged).map (fun g2 => (g2, true, "updated"))

/-- `ContactGraph.remove_contact` (graph.py lines 116-127): deletes the
`_contacts` entry if present, and the graph node (with its incident
edges) if present; no error path exists for an absent uid. -/
def remove_contact (g : ContactGraph) (uid : String) : ContactGraph :=
  let contacts :=
    if g.contacts.any (fun p => p.1 = uid) then g.contacts.filter (fun p => p.1 ≠ uid)
    else g.contacts
  if uid ∈ g.nodes then
    { contacts := contacts
      nodes := g.nodes.erase uid
      edges := g.edges.filter (fun e => e.src ≠ uid ∧ e.dst ≠ uid) }
  else { contacts := contacts, nodes := g.nodes, edges := g.edges }

/-- The `Relationship` dataclass (`ppl/models/relationship.py`). -/
structure Relationship where
  source : Contact
  target : Contact
  types : List String := []
  directional : Bool := true
  metadata : List (String × JValue) := []

/-- `ContactGraph.add_relationship` (graph.py lines 129-158). -/
def add_relationship (g : ContactGraph) (rel : Relationship) : Except String ContactGraph :=
  if truthyUid rel.source.uid = false then .error "Relationship source must have a UID"
  else if truthyUid rel.target.uid = false then .error "Relationship target must have a UID"
  else
    match rel.source.uid, rel.target.uid with
    | some su, some tu =>
        if (g.contacts.any (fun p => p.1 = su)) = false then
          .error ("Source contact " ++ su ++ " not in graph")
        else if (g.contacts.any (fun p => p.1 = tu)) = false then
          .error ("Target contact " ++ tu ++ " not in graph")
        else
          .ok (addEdge g
            { src := su, dst := tu
              types := .jarr (rel.types.map .jstr)
              directional := .jbool rel.directional
              metadata := .jobj rel.metadata })
    | _, _ => .error "unreachable"

/-- `ContactGraph.get_all_contacts` (graph.py lines 193-200). -/
def get_all_contacts (g : ContactGraph) : List Contact :=
  g.contacts.map (·.2)

/-- The `Dict[str, str]` returned by `ContactGraph._serialize_contact`
(graph.py lines 429-516), as a record of optional attributes: `none`
models the key being absent from the dict, `some v` the key bound to the
(string-kinded) value `v`.  The key set of that dict is fixed by the
source, so the record form is equivalent to the association list. -/
structure SerializedContact where
  fn : Option JValue := none
  version : Option JValue := none
  uid : Option JValue := none
  n : Option JValue := none
  rev : Option JValue := none
  email : Option JValue := none
  tel : Option JValue := none
  adr : Option JValue := none
  org : Option JValue := none
  title : Option JValue := none
  role : Option JValue := none
  note : Option JValue := none
  categories : Option JValue := none
  url : Option JValue := none
  nickname : Option JValue := none
  bday : Option JValue := none
  anniversary : Option JValue := none
  gender : Option JValue := none
  photo : Option JValue := none
  tz : Option JValue := none
  geo : Option JValue := none
  related : Option JValue := none

/-- `if contact.f: data['f'] = contact.f` for an optional string field:
emitted only when present and non-empty (Python truthiness). -/
def serStrOpt (v : Option String) : Option JValue :=
  match v with
  | some s => if s = "" then none else some (.jstr s)
  | none => none

/-- `if contact.f: data['f'] = json.dumps(contact.f)` for a list field:
emitted only when non-empty, as the JSON text of the list. -/
def serList (l : List String) : Option JValue :=
  if l = [] then none else some (.jdumpsStr (.jarr (l.map .jstr)))

/-- The per-entry dict built for a RELATED reference (graph.py lines
505-513). -/
def relToJson (r : Related) : JValue :=
  .jobj
    [("uri", .jstr r.uri),
     ("type", .jarr (r.type.map .jstr)),
     ("text_value", match r.text_value with | some s => .jstr s | none => .jnull),
     ("pref", match r.pref with | some p => .jint p | none => .jnull)]

/-- `if contact.geo: data['geo'] = json.dumps(contact.geo)` (graph.py
lines 500-501); a present 2-tuple is always truthy. -/
def serGeo : Option (PyFloat × PyFloat) → Option JValue
  | some (a, b) => some (.jdumpsStr (.jarr [.jfloat a, .jfloat b]))
  | none => none

/-- `if contact.related: data['related'] = json.dumps(related_data)`
(graph.py lines 503-514). -/
def serRelated (l : List Related) : Option JValue :=
  if l = [] then none else some (.jdumpsStr (.jarr (l.map relToJson)))

/-- `ContactGraph._serialize_contact` (graph.py lines 429-516). -/
def serialize_contact (c : Contact) : SerializedContact :=
  { fn := some (.jstr c.fn)
    version := some (.jstr c.version)
    uid := serStrOpt c.uid
    n := serStrOpt c.n
    rev := c.rev.map .jisoStr
    email := serList c.email
    tel := serList c.tel
    adr := serList c.adr
    org := serList c.org
    title := serStrOpt c.title
    role := serStrOpt c.role
    note := serStrOpt c.note
    categories := serList c.categories
    url := serList c.url
    nickname := serList c.nickname
    bday := serStrOpt c.bday
    anniversary := serStrOpt c.anniversary
    gender := serStrOpt c.gender
    photo := serStrOpt c.photo
    tz := serStrOpt c.tz
    geo := serGeo c.geo
    related := serRelated c.related }

/-- The `try: json.loads(data[k]) except: [data[k]]` pattern used for
each JSON-serialized list field (graph.py lines 579-620). -/
def deserListField (w : Option JValue) : List String :=
  match w with
  | none => []
  | some v =>
      match jsonLoads v with
      | some u => u.asStringList
      | none => [v.asString]

/-- Rebuilding one `Related` from its decoded dict (graph.py lines
634-640); a JSON `null` value behaves like an absent key under
`dict.get` with a `None`-like default. -/
def relFromJson (v : JValue) : Related :=
  match v with
  | .jobj kvs =>
      { uri := match jobjGet kvs "uri" with | some u => u.asString | none => ""
        type := match jobjGet kvs "type" with | some t => t.asStringList | none => []
        text_value :=
          match jobjGet kvs "text_value" with
          | some .jnull => none
          | some t => some t.asString
          | none => none
        pref :=
          match jobjGet kvs "pref" with
          | some .jnull => none
          | some t => some t.asInt
          | none => none }
  | _ => { uri := "" }

/-- The REV restore (graph.py lines 544-549). -/
def deserRevField (w : Option JValue) : Option DateTime :=
  match w with
  | some v => fromIso v
  | none => none

/-- The geo restore (graph.py lines 622-628): only a decoded
two-element list is accepted; anything else leaves geo unset. -/
def deserGeoField (w : Option JValue) : Option (PyFloat × PyFloat) :=
  match w with
  | none => none
  | some v =>
      match jsonLoads v with
      | some (.jarr [a, b]) => some (a.asFloat, b.asFloat)
      | some _ => none
      | none => none

/-- The RELATED restore (graph.py lines 630-643). -/
def deserRelatedField (w : Option JValue) : List Related :=
  match w with
  | none => []
  | some v =>
      match jsonLoads v with
      | some (.jarr items) => items.map relFromJson
      | _ => []

/-- `ContactGraph._deserialize_contact` (graph.py lines 518-645).  The
`Contact(fn=fn)` construction raises `ValueError` when the restored
`fn` is empty (`Contact.__post_init__`), which is the only failure path. -/
def deserialize_contact (uid : String) (data : SerializedContact) : Except String Contact :=
  let fn := match data.fn with | some v => v.asString | none => ""
  if fn = "" then .error "FN (formatted name) is required"
  else
    .ok
      { fn := fn
        uid := some (match data.uid with | some v => v.asString | none => uid)
        version := match data.version with | some v => v.asString | none => "4.0"
        rev := deserRevField data.rev
        n := data.n.map JValue.asString
        title := data.title.map JValue.asString
        role := data.role.map JValue.asString
        note := data.note.map JValue.asString
        bday := data.bday.map JValue.asString
        anniversary := data.anniversary.map JValue.asString
        gender := data.gender.map JValue.asString
        photo := data.photo.map JValue.asString
        tz := data.tz.map JValue.asString
        email := deserListField data.email
        tel := deserListField data.tel
        adr := deserListField data.adr
        org := deserListField data.org
        categories := deserListField data.categories
        url := deserListField data.url
        nickname := deserListField data.nickname
        geo := deserGeoField data.geo
        related := deserRelatedField data.related }

/-- One node record of the JSON-graph-schema file (`{key, attributes}`);
the GraphML file's nodes have the same shape, since both codecs write
the `_serialize_contact` dict verbatim as node attributes. -/
structure FileNode where
  key : String
  attributes : SerializedContact

/-- One edge record of the JSON-graph-schema file. -/
structure JsonEdge where
  key : String
  source : String
  target : String
  types : JValue
  directional : JValue
  metadata : JValue

/-- The JSON-graph-schema file written by `_save_json` (graph.py lines
276-330). -/
structure JsonFile where
  name : String
  allowSelfLoops : Bool
  multi : Bool
  graphType : String
  nodes : List FileNode
  edges : List JsonEdge

/-- `ContactGraph._save_json` (graph.py lines 276-330): node attributes
are the `_serialize_contact` dict (JSON-text-encoded strings included),
edge attributes are copied natively. -/
def save_json (g : ContactGraph) : JsonFile :=
  { name := "Contact Graph"
    allowSelfLoops := true
    multi := false
    graphType := "directed"
    nodes := g.contacts.map (fun p => ⟨p.1, serialize_contact p.2⟩)
    edges := g.edges.map (fun e =>
      ⟨e.src ++ "->" ++ e.dst, e.src, e.dst, e.types, e.directional, e.metadata⟩) }

/-- `ContactGraph._load_json` (graph.py lines 397-427). -/
def load_json (f : JsonFile) : Except String ContactGraph := do
  let g1 ← f.nodes.foldlM
    (fun (g : ContactGraph) nd => do
      let c ← deserialize_contact nd.key nd.attributes
      pure { g with contacts := dictSet g.contacts nd.key c, nodes := addNode g.nodes nd.key })
    ⟨[], [], []⟩
  pure (f.edges.foldl
    (fun g e => addEdge g ⟨e.source, e.target, e.types, e.directional, e.metadata⟩) g1)

/-- One edge element of the GraphML file. -/
structure GmlEdge where
  source : String
  target : String
  types : JValue
  directional : JValue
  metadata : JValue

/-- The GraphML file written by `_save_graphml`. -/
structure GmlFile where
  nodes : List FileNode
  edges : List GmlEdge

/-- The per-value encoding of `_save_graphml`'s edge loop (graph.py
lines 263-271): lists and dicts become their `json.dumps` text, scalars
are kept. -/
def gmlEncodeVal (v : JValue) : JValue :=
  if v.isListOrDict then .jdumpsStr v else v

/-- The per-value decoding of `_load_graphml`'s edge loop (graph.py
lines 384-395): strings are tentatively `json.loads`-decoded, falling
back to the raw string; non-strings are kept. -/
def gmlDecodeVal (v : JValue) : JValue :=
  if v.isString then
    match jsonLoads v with
    | some u => u
    | none => v
  else v

/-- `ContactGraph._save_graphml` (graph.py lines 243-274). -/
def save_graphml (g : ContactGraph) : GmlFile :=
  { nodes := g.contacts.map (fun p => ⟨p.1, serialize_contact p.2⟩)
    edges := g.edges.map (fun e =>
      ⟨e.src, e.dst, gmlEncodeVal e.types, gmlEncodeVal e.directional, gmlEncodeVal e.metadata⟩) }

/-- `ContactGraph._load_graphml` (graph.py lines 362-395). -/
def load_graphml (f : GmlFile) : Except String ContactGraph := do
  let g1 ← f.nodes.foldlM
    (fun (g : ContactGraph) nd => do
      let c ← deserialize_contact nd.key nd.attributes
      pure { g with contacts := dictSet g.contacts nd.key c, nodes := addNode g.nodes nd.key })
    ⟨[], [], []⟩
  pure (f.edges.foldl
    (fun g e =>
      addEdge g ⟨e.source, e.target, gmlDecodeVal e.types, gmlDecodeVal e.directional,
        gmlDecodeVal e.metadata⟩) g1)

/-- `Inconsistency` (`ppl/services/consistency.py` lines 16-29). -/
structure Inconsistency where
  type : String
  source : String
  target : Option String := none
  details : String := ""
  severity : String := "warning"
deriving DecidableEq

/-- The dict comprehension `{c.uid: c for c in contacts if c.uid}`
(consistency.py lines 113-115 and 192-194): contacts with a falsy uid
are skipped, later entries overwrite earlier ones. -/
def byUid (cs : List Contact) : List (String × Contact) :=
  cs.foldl
    (fun acc c =>
      match c.uid with
      | some u => if u = "" then acc else dictSet acc u c
      | none => acc)
    []

/-- The "in graph but not in folder" loop (consistency.py lines
117-126 / 196-205), parametrized by the folder's `source` label and
`details` wording. -/
def missingIncs (src mid : String) (graph_by_uid folder_by_uid : List (String × Contact)) :
    List Inconsistency :=
  graph_by_uid.filterMap (fun p =>
    if folder_by_uid.any (fun q => q.1 = p.1) then none
    else some
      { type := "missing", source := src, target := some p.1
        details := "Contact \"" ++ p.2.fn ++ "\" (" ++ p.1 ++ mid
        severity := "warning" })

/-- The "in folder but not in graph" loop (consistency.py lines
128-137 / 207-216). -/
def orphanedIncs (src pre mid : String) (graph_by_uid folder_by_uid : List (String × Contact)) :
    List Inconsistency :=
  folder_by_uid.filterMap (fun p =>
    if graph_by_uid.any (fun q => q.1 = p.1) then none
    else some
      { type := "orphaned", source := src, target := some p.1
        details := pre ++ p.2.fn ++ "\" (" ++ p.1 ++ mid
        severity := "warning" })

/-- The REV-mismatch loop (consistency.py lines 139-154 / 218-232);
the Python `set` intersection iterates in unspecified order, modelled
in graph-map order, and the formatted timestamps in the
presentation-only `details` text are not rendered. -/
def outdatedIncs (src mid : String) (graph_by_uid folder_by_uid : List (String × Contact)) :
    List Inconsistency :=
  graph_by_uid.filterMap (fun p =>
    match dictGet folder_by_uid p.1 with
    | none => none
    | some fc =>
        match p.2.rev, fc.rev with
        | some gr, some fr =>
            if gr ≠ fr then
              some
                { type := "outdated", source := src, target := some p.1
                  details := "Contact \"" ++ p.2.fn ++ mid
                  severity := "warning" }
            else none
        | _, _ => none)

/-- The comparison core of `ConsistencyService.check_graph_vcf_consistency`
(consistency.py lines 112-155), taking the already-imported folder
contacts (folder traversal and file parsing are I/O, outside the core). -/
def check_graph_vcf_consistency (g : ContactGraph) (vcf_contacts : List Contact) :
    List Inconsistency :=
  let vcf_by_uid := byUid vcf_contacts
  let graph_by_uid := byUid (get_all_contacts g)
  missingIncs "vcf_folder" ") exists in graph but not in VCF folder" graph_by_uid vcf_by_uid
    ++ orphanedIncs "vcf_folder" "VCF file for \"" ") exists but contact not in graph"
        graph_by_uid vcf_by_uid
    ++ outdatedIncs "vcf_folder" "\" has a REV mismatch between VCF and graph"
        graph_by_uid vcf_by_uid

/-- The comparison core of
`ConsistencyService.check_graph_markdown_consistency` (consistency.py
lines 191-234), identical to the VCF variant up to the folder name in
`source` and the `details` wording. -/
def check_graph_markdown_consistency (g : ContactGraph) (md_contacts : List Contact) :
    List Inconsistency :=
  let md_by_uid := byUid md_contacts
  let graph_by_uid := byUid (get_all_contacts g)
  missingIncs "markdown_folder" ") exists in graph but not in Markdown folder"
      graph_by_uid md_by_uid
    ++ orphanedIncs "markdown_folder" "Markdown file for \"" ") exists but contact not in graph"
        graph_by_uid md_by_uid
    ++ outdatedIncs "markdown_folder" "\" has a REV mismatch between Markdown and graph"
        graph_by_uid md_by_uid

/-! ## General lemmas about the dict and fold primitives -/

theorem find?_map_overwrite {α : Type} (k : String) (v : α) :
    ∀ d : List (String × α), d.any (fun p => p.1 = k) = true →
      ((d.map (fun p => if p.1 = k then (k, v) else p)).find? (fun p => p.1 = k)).map (·.2)
        = some v := by
  intro d
  induction d with
  | nil => intro h; simp at h
  | cons p rest ih =>
      intro h
      by_cases hp : p.1 = k
      · simp only [List.map_cons, if_pos hp]
        rw [List.find?_cons_of_pos _ (by simp)]
        rfl
      · have hrest : rest.any (fun p => p.1 = k) = true := by
          simp only [List.any_cons, Bool.or_eq_true, decide_eq_true_eq] at h
          rcases h with h | h
          · exact absurd h hp
          · exact h
        simp only [List.map_cons, if_neg hp]
        rw [List.find?_cons_of_neg _ (by simpa using hp)]
        exact ih hrest

theorem find?_append_new {α : Type} (k : String) (v : α) :
    ∀ d : List (String × α), d.any (fun p => p.1 = k) = false →
      ((d ++ [(k, v)]).find? (fun p => p.1 = k)).map (·.2) = some v := by
  intro d
  induction d with
  | nil =>
      intro _
      simp only [List.nil_append]
      rw [List.find?_cons_of_pos _ (by simp)]
      rfl
  | cons p rest ih =>
      intro h
      simp only [List.any_cons, Bool.or_eq_false_iff, decide_eq_false_iff_not] at h
      simp only [List.cons_append]
      rw [List.find?_cons_of_neg _ (by simpa using h.1)]
      exact ih (by simpa using h.2)

theorem dictGet_dictSet {α : Type} (d : List (String × α)) (k : String) (v : α) :
    dictGet (dictSet d k v) k = some v := by
  unfold dictSet dictGet
  by_cases h : d.any (fun p => p.1 = k)
  · rw [if_pos h]
    exact find?_map_overwrite k v d h
  · rw [if_neg h]
    have h0 : d.any (fun p => p.1 = k) = false := by
      cases hx : d.any (fun p => p.1 = k)
      · rfl
      · exact absurd hx h
    exact find?_append_new k v d h0


theorem anyKey_eq_false_iff {α : Type} (d : List (String × α)) (k : String) :
    d.any (fun p => p.1 = k) = false ↔ k ∉ d.map Prod.fst := by
  induction d with
  | nil => simp
  | cons p rest ih =>
      simp only [List.any_cons, Bool.or_eq_false_iff, decide_eq_false_iff_not, List.map_cons,
        List.mem_cons, not_or, ih]
      constructor
      · rintro ⟨h1, h2⟩; exact ⟨fun h => h1 h.symm, h2⟩
      · rintro ⟨h1, h2⟩; exact ⟨fun h => h1 h.symm, h2⟩

/-! ## C2: merge-into-store skip rule -/

/-- **C2.** For every store containing an entity stored under id `u` and
every incoming entity with id `u` whose revision is strictly older than
the stored one (the stored entity compares strictly newer under
`compare_rev`), `merge_contact` returns `(False, "skipped")` and the
store — in particular the stored entity — is completely unchanged. -/
theorem merge_contact_skip_no_mutation (g : ContactGraph) (c existing : Contact) (u : String)
    (huid : c.uid = some u) (hne : u ≠ "")
    (hex : get_contact g u = some existing)
    (holder : compare_rev existing c > 0) :
    merge_contact g c = .ok (g, false, "skipped") := by
  unfold merge_contact
  rw [huid]
  simp only [if_neg hne, hex, if_pos holder]

/-- Witness for C2 at a concrete store and incoming contact. -/
theorem merge_contact_skip_no_mutation_witness :
    merge_contact
      ⟨[("u", { fn := "A", uid := some "u", rev := some 5, title := some "Junior" })], ["u"], []⟩
      { fn := "A", uid := some "u", rev := some 3, title := some "Senior" }
      = .ok (⟨[("u", { fn := "A", uid := some "u", rev := some 5, title := some "Junior" })],
              ["u"], []⟩, false, "skipped") :=
  merge_contact_skip_no_mutation _ _
    { fn := "A", uid := some "u", rev := some 5, title := some "Junior" } "u"
    rfl (by decide) rfl (by decide)

/-! ## C4: revision monotonicity of `merge_from` -/

/-- The spec's revision bound (spec §4.1 step 6, §8 "Revision
monotonicity"): the maximum of the two revisions, an absent revision
being the minimum possible value. -/
def specRevMax (a b : Option DateTime) : Option DateTime :=
  match a, b with
  | none, none => none
  | none, some y => some y
  | some x, none => some x
  | some x, some y => some (max x y)

/-- **C4.** For all entities and both values of `prefer_newer`, the
merged revision is the maximum of the two input revisions (absent
treated as minimal); it never regresses even when `prefer_newer=false`
keeps `self`'s values elsewhere. -/
theorem merge_from_rev_monotone (a b : Contact) (prefer_newer : Bool) :
    (merge_from a b prefer_newer).rev = specRevMax a.rev b.rev := by
  show mergeRev a.rev b.rev = specRevMax a.rev b.rev
  unfold mergeRev specRevMax
  match a.rev, b.rev with
  | none, none => rfl
  | none, some y => rfl
  | some x, none => rfl
  | some x, some y =>
      show (if y > x then some y else some x) = some (max x y)
      by_cases hxy : y > x
      · rw [if_pos hxy, Nat.max_eq_right (Nat.le_of_lt hxy)]
      · rw [if_neg hxy, Nat.max_eq_left (Nat.le_of_not_lt hxy)]

/-! ## C6: behavior of `add` on duplicate and invalid ids -/

/-- **C6 counterexample.** Adding a contact whose id is already present
does *not* raise: it returns normally and silently replaces the stored
entity (the claimed `DuplicateEntity` signal does not exist in
`add_contact`). -/
theorem add_contact_overwrites_duplicate :
    add_contact ⟨[("u", { fn := "Old", uid := some "u" })], ["u"], []⟩
        { fn := "New", uid := some "u" }
      = .ok ⟨[("u", { fn := "New", uid := some "u" })], ["u"], []⟩ := by
  rfl

/-- **C6 amended.** `add` with a missing or empty id raises the invalid-
entity signal (`ValueError`); `add` with a valid id always returns
normally, storing the contact under its id — when the id is already
present this silently overwrites the stored entity, so a subsequent
lookup returns the new contact. -/
theorem add_contact_invalid_and_overwrite (g : ContactGraph) (c : Contact) :
    (truthyUid c.uid = false →
      add_contact g c = .error "Contact must have a UID to be added to graph") ∧
    (∀ u : String, c.uid = some u → u ≠ "" →
      add_contact g c
          = .ok { g with contacts := dictSet g.contacts u c, nodes := addNode g.nodes u } ∧
        get_contact { g with contacts := dictSet g.contacts u c, nodes := addNode g.nodes u } u
          = some c) := by
  constructor
  · intro hf
    unfold add_contact
    match h : c.uid with
    | none => rfl
    | some u =>
        rw [h] at hf
        have hu : u = "" := by simpa [truthyUid] using hf
        simp [hu]
  · intro u hu hne
    unfold add_contact
    rw [hu]
    exact ⟨by simp [hne], dictGet_dictSet g.contacts u c⟩

/-- Witness for C6 amended at concrete inputs: an empty-id add errors,
and a duplicate-id add overwrites. -/
theorem add_contact_invalid_and_overwrite_witness :
    (add_contact ⟨[], [], []⟩ { fn := "X", uid := some "" }
        = .error "Contact must have a UID to be added to graph") ∧
    (add_contact ⟨[("u", { fn := "Old", uid := some "u" })], ["u"], []⟩
          { fn := "New", uid := some "u" }
        = .ok { contacts := dictSet [("u", { fn := "Old", uid := some "u" })] "u"
                  { fn := "New", uid := some "u" },
                nodes := addNode ["u"] "u", edges := [] } ∧
      get_contact
          { contacts := dictSet [("u", { fn := "Old", uid := some "u" })] "u"
              { fn := "New", uid := some "u" },
            nodes := addNode ["u"] "u", edges := ([] : List Edge) } "u"
        = some { fn := "New", uid := some "u" }) :=
  ⟨(add_contact_invalid_and_overwrite ⟨[], [], []⟩ { fn := "X", uid := some "" }).1 (by decide),
   (add_contact_invalid_and_overwrite _ _).2 "u" rfl (by decide)⟩

/-! ## C10: removal of an absent id is a silent no-op -/

/-- **C10.** `remove_contact` is a total function (the source has no
raise path), and for every store satisfying the store invariant that
the node set mirrors the `_contacts` keys, removing an id that is not
present leaves the entity map, node set and edge set unchanged. -/
theorem remove_contact_absent_noop (g : ContactGraph) (uid : String)
    (habs : get_contact g uid = none)
    (hwf : g.nodes = g.contacts.map Prod.fst) :
    remove_contact g uid = g := by
  have hfind : g.contacts.find? (fun p => p.1 = uid) = none := by
    unfold get_contact dictGet at habs
    cases hf : g.contacts.find? (fun p => p.1 = uid) with
    | none => rfl
    | some p => rw [hf] at habs; simp at habs
  have hany : g.contacts.any (fun p => p.1 = uid) = false := by
    rw [List.any_eq_false]
    intro p hp
    have := List.find?_eq_none.mp hfind p hp
    simpa using this
  have hnode : uid ∉ g.nodes := by
    rw [hwf]
    exact (anyKey_eq_false_iff g.contacts uid).mp hany
  unfold remove_contact
  simp only [hany, if_neg hnode, Bool.false_eq_true, if_false]

/-- Witness for C10 at a concrete store and absent id. -/
theorem remove_contact_absent_noop_witness :
    remove_contact ⟨[("u", { fn := "A", uid := some "u" })], ["u"], []⟩ "v"
      = ⟨[("u", { fn := "A", uid := some "u" })], ["u"], []⟩ :=
  remove_contact_absent_noop _ "v" rfl rfl

/-! ## Characterizations of the per-field merge primitives -/

/-- First-occurrence deduplication of `l` relative to an already-seen
set (the spec's "deduplicated", §4.1 step 3 / §8). -/
def dedupFirstAux {α : Type} [DecidableEq α] (seen : List α) : List α → List α
  | [] => []
  | x :: xs => if x ∈ seen then dedupFirstAux seen xs else x :: dedupFirstAux (x :: seen) xs

theorem dedupFirstAux_congr {α : Type} [DecidableEq α] :
    ∀ (l s₁ s₂ : List α), (∀ y, y ∈ s₁ ↔ y ∈ s₂) →
      dedupFirstAux s₁ l = dedupFirstAux s₂ l := by
  intro l
  induction l with
  | nil => intro s₁ s₂ _; rfl
  | cons x xs ih =>
      intro s₁ s₂ h
      by_cases hx : x ∈ s₁
      · rw [dedupFirstAux, dedupFirstAux, if_pos hx, if_pos ((h x).mp hx)]
        exact ih s₁ s₂ h
      · rw [dedupFirstAux, dedupFirstAux, if_neg hx, if_neg (fun hc => hx ((h x).mpr hc))]
        refine congrArg (x :: ·) (ih (x :: s₁) (x :: s₂) ?_)
        intro y
        simp only [List.mem_cons]
        exact or_congr Iff.rfl (h y)

theorem mergeList_eq_dedupFirstAux {α : Type} [DecidableEq α] :
    ∀ (o acc : List α), mergeList acc o = acc ++ dedupFirstAux acc o := by
  intro o
  induction o with
  | nil => intro acc; simp [mergeList, dedupFirstAux]
  | cons x xs ih =>
      intro acc
      show List.foldl _ (if x ∈ acc then acc else acc ++ [x]) xs = _
      by_cases hx : x ∈ acc
      · rw [if_pos hx, dedupFirstAux, if_pos hx]
        exact ih acc
      · rw [if_neg hx, dedupFirstAux, if_neg hx]
        have := ih (acc ++ [x])
        rw [mergeList] at this
        rw [this, List.append_assoc, List.singleton_append]
        refine congrArg (acc ++ x :: ·) (dedupFirstAux_congr xs (acc ++ [x]) (x :: acc) ?_)
        intro y
        simp only [List.mem_append, List.mem_singleton, List.mem_cons]
        tauto

/-- The spec's description of one merged collection field (§4.1 step 3,
§8 "Collection union property"): a deduplicated concatenation — `a`'s
original elements in order, then the elements of `b` novel to `a`, in
`b`'s order, first occurrence kept. -/
def specDedupConcat {α : Type} [DecidableEq α] (a b : List α) : List α :=
  a ++ dedupFirstAux [] (b.filter (fun x => decide (x ∉ a)))

theorem dedupFirstAux_filter {α : Type} [DecidableEq α] :
    ∀ (b A a S : List α), (∀ y, y ∈ A ↔ y ∈ a ∨ y ∈ S) →
      dedupFirstAux A b = dedupFirstAux S (b.filter (fun x => decide (x ∉ a))) := by
  intro b
  induction b with
  | nil => intro A a S _; rfl
  | cons x xs ih =>
      intro A a S h
      by_cases hxa : x ∈ a
      · rw [dedupFirstAux, if_pos ((h x).mpr (Or.inl hxa))]
        rw [List.filter_cons_of_neg (by simpa using hxa)]
        exact ih A a S h
      · rw [List.filter_cons_of_pos (by simpa using hxa)]
        by_cases hxs : x ∈ S
        · rw [dedupFirstAux, if_pos ((h x).mpr (Or.inr hxs)), dedupFirstAux, if_pos hxs]
          exact ih A a S h
        · have hxA : x ∉ A := fun hc => by
            rcases (h x).mp hc with hc | hc
            · exact hxa hc
            · exact hxs hc
          rw [dedupFirstAux, if_neg hxA, dedupFirstAux, if_neg hxs]
          refine congrArg (x :: ·) (ih (x :: A) a (x :: S) ?_)
          intro y
          simp only [List.mem_cons]
          rw [h y]
          tauto

theorem mergeList_eq_specDedupConcat {α : Type} [DecidableEq α] (a b : List α) :
    mergeList a b = specDedupConcat a b := by
  rw [mergeList_eq_dedupFirstAux, specDedupConcat]
  refine congrArg (a ++ ·) (dedupFirstAux_filter b a a [] ?_)
  intro y
  simp

/-- The novel relationship references of `o`, deduplicated by uri
against an already-seen uri set. -/
def relatedNovel (seen : List String) : List Related → List Related
  | [] => []
  | r :: rs => if r.uri ∈ seen then relatedNovel seen rs else r :: relatedNovel (r.uri :: seen) rs

theorem relatedNovel_congr :
    ∀ (l : List Related) (s₁ s₂ : List String), (∀ y, y ∈ s₁ ↔ y ∈ s₂) →
      relatedNovel s₁ l = relatedNovel s₂ l := by
  intro l
  induction l with
  | nil => intro s₁ s₂ _; rfl
  | cons r rs ih =>
      intro s₁ s₂ h
      by_cases hr : r.uri ∈ s₁
      · rw [relatedNovel, relatedNovel, if_pos hr, if_pos ((h r.uri).mp hr)]
        exact ih s₁ s₂ h
      · rw [relatedNovel, relatedNovel, if_neg hr, if_neg (fun hc => hr ((h r.uri).mpr hc))]
        refine congrArg (r :: ·) (ih (r.uri :: s₁) (r.uri :: s₂) ?_)
        intro y
        simp only [List.mem_cons]
        exact or_congr Iff.rfl (h y)

theorem mergeRelated_eq_aux :
    ∀ (o : List Related) (accL : List Related) (accS : List String),
      (o.foldl
        (fun (acc : List Related × List String) r =>
          if r.uri ∈ acc.2 then acc else (acc.1 ++ [r], acc.2 ++ [r.uri]))
        (accL, accS)).1 = accL ++ relatedNovel accS o := by
  intro o
  induction o with
  | nil => intro accL accS; simp [relatedNovel]
  | cons r rs ih =>
      intro accL accS
      show (rs.foldl _ (if r.uri ∈ accS then (accL, accS) else (accL ++ [r], accS ++ [r.uri]))).1 = _
      by_cases hr : r.uri ∈ accS
      · rw [if_pos hr, relatedNovel, if_pos hr]
        exact ih accL accS
      · rw [if_neg hr, relatedNovel, if_neg hr]
        rw [ih (accL ++ [r]) (accS ++ [r.uri]), List.append_assoc, List.singleton_append]
        refine congrArg (accL ++ r :: ·) (relatedNovel_congr rs (accS ++ [r.uri]) (r.uri :: accS) ?_)
        intro y
        simp only [List.mem_append, List.mem_singleton, List.mem_cons]
        tauto

theorem mergeRelated_eq (s o : List Related) :
    mergeRelated s o = s ++ relatedNovel (s.map (fun r => r.uri)) o := by
  exact mergeRelated_eq_aux o s (s.map (fun r => r.uri))

theorem mergeSimple_isSome {α : Type} (s o : Option α) (w : Bool)
    (h : s.isSome = true) : (mergeSimple s o w).isSome = true := by
  unfold mergeSimple
  match o, s with
  | none, s => exact h
  | some o2, none => rfl
  | some o2, some s2 => cases w <;> rfl

theorem mergeList_ne_nil {α : Type} [DecidableEq α] (s o : List α)
    (h : s ≠ []) : mergeList s o ≠ [] := by
  rw [mergeList_eq_dedupFirstAux]
  simp only [ne_eq, List.append_eq_nil]
  intro hc
  exact h hc.1

theorem mergeRelated_ne_nil (s o : List Related) (h : s ≠ []) : mergeRelated s o ≠ [] := by
  rw [mergeRelated_eq]
  simp only [ne_eq, List.append_eq_nil]
  intro hc
  exact h hc.1

theorem mergeDict_length (o s : List (String × String)) (w : Bool) :
    s.length ≤ (mergeDict s o w).length := by
  induction o generalizing s with
  | nil => exact Nat.le_refl _
  | cons kv rest ih =>
      show s.length ≤ (mergeDict (if s.any (fun p => p.1 = kv.1) then
        (if w then s.map (fun p => if p.1 = kv.1 then (p.1, kv.2) else p) else s)
        else s ++ [kv]) rest w).length
      refine Nat.le_trans ?_ (ih _)
      by_cases h1 : s.any (fun p => p.1 = kv.1)
      · rw [if_pos h1]
        cases w
        · exact Nat.le_refl _
        · simp
      · rw [if_neg h1]
        simp

theorem mergeDict_ne_nil (s o : List (String × String)) (w : Bool)
    (h : s ≠ []) : mergeDict s o w ≠ [] := by
  intro hc
  have h1 := mergeDict_length o s w
  rw [hc] at h1
  simp only [List.length_nil, Nat.le_zero, List.length_eq_zero] at h1
  exact h h1

theorem mergeRev_isSome (s o : Option DateTime) (h : s.isSome = true) :
    (mergeRev s o).isSome = true := by
  unfold mergeRev
  match o, s with
  | none, s => exact h
  | some o2, none => rfl
  | some o2, some s2 =>
      show (if o2 > s2 then some o2 else some s2).isSome = true
      by_cases hgt : o2 > s2
      · rw [if_pos hgt]; rfl
      · rw [if_neg hgt]; rfl

/-! ## C3: merge never deletes -/

/-- **C3.** For all entities `a`, `b` and both values of `prefer_newer`,
every field of `a` that is non-empty before `a.merge_from(b)` is still
non-empty after: every populated scalar stays populated (never nulled
because `b` lacks it), every non-empty collection, map and the
relationship list stay non-empty, and the required `fn` is untouched. -/
theorem merge_from_never_deletes (a b : Contact) (p : Bool) :
    (a.fn ≠ "" → (merge_from a b p).fn ≠ "") ∧
    (a.version ≠ "" → (merge_from a b p).version ≠ "") ∧
    (a.uid.isSome = true → (merge_from a b p).uid.isSome = true) ∧
    (a.n.isSome = true → (merge_from a b p).n.isSome = true) ∧
    (a.photo.isSome = true → (merge_from a b p).photo.isSome = true) ∧
    (a.bday.isSome = true → (merge_from a b p).bday.isSome = true) ∧
    (a.anniversary.isSome = true → (merge_from a b p).anniversary.isSome = true) ∧
    (a.gender.isSome = true → (merge_from a b p).gender.isSome = true) ∧
    (a.tz.isSome = true → (merge_from a b p).tz.isSome = true) ∧
    (a.title.isSome = true → (merge_from a b p).title.isSome = true) ∧
    (a.role.isSome = true → (merge_from a b p).role.isSome = true) ∧
    (a.logo.isSome = true → (merge_from a b p).logo.isSome = true) ∧
    (a.note.isSome = true → (merge_from a b p).note.isSome = true) ∧
    (a.prodid.isSome = true → (merge_from a b p).prodid.isSome = true) ∧
    (a.sound.isSome = true → (merge_from a b p).sound.isSome = true) ∧
    (a.fburl.isSome = true → (merge_from a b p).fburl.isSome = true) ∧
    (a.caladruri.isSome = true → (merge_from a b p).caladruri.isSome = true) ∧
    (a.caluri.isSome = true → (merge_from a b p).caluri.isSome = true) ∧
    (a.geo.isSome = true → (merge_from a b p).geo.isSome = true) ∧
    (a.rev.isSome = true → (merge_from a b p).rev.isSome = true) ∧
    (a.nickname ≠ [] → (merge_from a b p).nickname ≠ []) ∧
    (a.email ≠ [] → (merge_from a b p).email ≠ []) ∧
    (a.tel ≠ [] → (merge_from a b p).tel ≠ []) ∧
    (a.impp ≠ [] → (merge_from a b p).impp ≠ []) ∧
    (a.lang ≠ [] → (merge_from a b p).lang ≠ []) ∧
    (a.adr ≠ [] → (merge_from a b p).adr ≠ []) ∧
    (a.org ≠ [] → (merge_from a b p).org ≠ []) ∧
    (a.member ≠ [] → (merge_from a b p).member ≠ []) ∧
    (a.categories ≠ [] → (merge_from a b p).categories ≠ []) ∧
    (a.url ≠ [] → (merge_from a b p).url ≠ []) ∧
    (a.key ≠ [] → (merge_from a b p).key ≠ []) ∧
    (a.related ≠ [] → (merge_from a b p).related ≠ []) ∧
    (a.x_properties ≠ [] → (merge_from a b p).x_properties ≠ []) ∧
    (a.clientpidmap ≠ [] → (merge_from a b p).clientpidmap ≠ []) :=
  ⟨fun h => h, fun h => h, fun h => h,
   fun h => mergeSimple_isSome a.n b.n _ h,
   fun h => mergeSimple_isSome a.photo b.photo _ h,
   fun h => mergeSimple_isSome a.bday b.bday _ h,
   fun h => mergeSimple_isSome a.anniversary b.anniversary _ h,
   fun h => mergeSimple_isSome a.gender b.gender _ h,
   fun h => mergeSimple_isSome a.tz b.tz _ h,
   fun h => mergeSimple_isSome a.title b.title _ h,
   fun h => mergeSimple_isSome a.role b.role _ h,
   fun h => mergeSimple_isSome a.logo b.logo _ h,
   fun h => mergeSimple_isSome a.note b.note _ h,
   fun h => mergeSimple_isSome a.prodid b.prodid _ h,
   fun h => mergeSimple_isSome a.sound b.sound _ h,
   fun h => mergeSimple_isSome a.fburl b.fburl _ h,
   fun h => mergeSimple_isSome a.caladruri b.caladruri _ h,
   fun h => mergeSimple_isSome a.caluri b.caluri _ h,
   fun h => mergeSimple_isSome a.geo b.geo _ h,
   fun h => mergeRev_isSome a.rev b.rev h,
   fun h => mergeList_ne_nil a.nickname b.nickname h,
   fun h => mergeList_ne_nil a.email b.email h,
   fun h => mergeList_ne_nil a.tel b.tel h,
   fun h => mergeList_ne_nil a.impp b.impp h,
   fun h => mergeList_ne_nil a.lang b.lang h,
   fun h => mergeList_ne_nil a.adr b.adr h,
   fun h => mergeList_ne_nil a.org b.org h,
   fun h => mergeList_ne_nil a.member b.member h,
   fun h => mergeList_ne_nil a.categories b.categories h,
   fun h => mergeList_ne_nil a.url b.url h,
   fun h => mergeList_ne_nil a.key b.key h,
   fun h => mergeRelated_ne_nil a.related b.related h,
   fun h => mergeDict_ne_nil a.x_properties b.x_properties _ h,
   fun h => mergeDict_ne_nil a.clientpidmap b.clientpidmap _ h⟩

/-- Concrete entity with every field populated (used by the C3 witness). -/
def cFull : Contact :=
  { fn := "F", version := "4.0", uid := some "u", n := some "N", nickname := ["nick"],
    photo := some "p", bday := some "b", anniversary := some "an", gender := some "g",
    email := ["e"], tel := ["t"], impp := ["i"], lang := ["l"], adr := ["a"],
    tz := some "tzv", geo := some (⟨1⟩, ⟨2⟩), title := some "ti", role := some "r",
    logo := some "lo", org := ["o"], member := ["m"],
    related := [⟨"urn:uuid:x", ["friend"], none, none⟩],
    categories := ["c"], note := some "no", prodid := some "pi", rev := some 7,
    sound := some "s", clientpidmap := [("1", "cv")], url := ["u1"], key := ["k"],
    fburl := some "f", caladruri := some "cad", caluri := some "cal",
    x_properties := [("X-A", "v")] }

/-- Concrete second entity for the C3 witness. -/
def cOther : Contact := { fn := "G", rev := some 9, email := ["g@x"] }

/-- Witness for C3 at a concrete fully-populated entity. -/
theorem merge_from_never_deletes_witness :
    (merge_from cFull cOther true).fn ≠ "" ∧
    (merge_from cFull cOther true).version ≠ "" ∧
    (merge_from cFull cOther true).uid.isSome = true ∧
    (merge_from cFull cOther true).n.isSome = true ∧
    (merge_from cFull cOther true).photo.isSome = true ∧
    (merge_from cFull cOther true).bday.isSome = true ∧
    (merge_from cFull cOther true).anniversary.isSome = true ∧
    (merge_from cFull cOther true).gender.isSome = true ∧
    (merge_from cFull cOther true).tz.isSome = true ∧
    (merge_from cFull cOther true).title.isSome = true ∧
    (merge_from cFull cOther true).role.isSome = true ∧
    (merge_from cFull cOther true).logo.isSome = true ∧
    (merge_from cFull cOther true).note.isSome = true ∧
    (merge_from cFull cOther true).prodid.isSome = true ∧
    (merge_from cFull cOther true).sound.isSome = true ∧
    (merge_from cFull cOther true).fburl.isSome = true ∧
    (merge_from cFull cOther true).caladruri.isSome = true ∧
    (merge_from cFull cOther true).caluri.isSome = true ∧
    (merge_from cFull cOther true).geo.isSome = true ∧
    (merge_from cFull cOther true).rev.isSome = true ∧
    (merge_from cFull cOther true).nickname ≠ [] ∧
    (merge_from cFull cOther true).email ≠ [] ∧
    (merge_from cFull cOther true).tel ≠ [] ∧
    (merge_from cFull cOther true).impp ≠ [] ∧
    (merge_from cFull cOther true).lang ≠ [] ∧
    (merge_from cFull cOther true).adr ≠ [] ∧
    (merge_from cFull cOther true).org ≠ [] ∧
    (merge_from cFull cOther true).member ≠ [] ∧
    (merge_from cFull cOther true).categories ≠ [] ∧
    (merge_from cFull cOther true).url ≠ [] ∧
    (merge_from cFull cOther true).key ≠ [] ∧
    (merge_from cFull cOther true).related ≠ [] ∧
    (merge_from cFull cOther true).x_properties ≠ [] ∧
    (merge_from cFull cOther true).clientpidmap ≠ [] := by
  obtain ⟨h1, h2, h3, h4, h5, h6, h7, h8, h9, h10, h11, h12, h13, h14, h15, h16, h17, h18, h19, h20, h21, h22, h23, h24, h25, h26, h27, h28, h29, h30, h31, h32, h33, h34⟩ := merge_from_never_deletes cFull cOther true
  exact ⟨h1 (by decide), h2 (by decide), h3 (by decide), h4 (by decide), h5 (by decide), h6 (by decide), h7 (by decide), h8 (by decide), h9 (by decide), h10 (by decide), h11 (by decide), h12 (by decide), h13 (by decide), h14 (by decide), h15 (by decide), h16 (by decide), h17 (by decide), h18 (by decide), h19 (by decide), h20 (by decide), h21 (by decide), h22 (by decide), h23 (by decide), h24 (by decide), h25 (by decide), h26 (by decide), h27 (by decide), h28 (by decide), h29 (by decide), h30 (by decide), h31 (by decide), h32 (by decide), h33 (by decide), h34 (by decide)⟩

/-! ## C5: collection fields merge as deduplicated concatenation -/

/-- **C5.** For every collection field and all entities `a`, `b`,
independently of `prefer_newer` and of the revision comparison, the
merged field equals the deduplicated concatenation: `a`'s original
elements in their original order, followed by the elements of `b` not
already present in `a` (first occurrence kept), in `b`'s order. -/
theorem merge_from_list_union (a b : Contact) (p : Bool) :
    (merge_from a b p).nickname = specDedupConcat a.nickname b.nickname ∧
    (merge_from a b p).email = specDedupConcat a.email b.email ∧
    (merge_from a b p).tel = specDedupConcat a.tel b.tel ∧
    (merge_from a b p).impp = specDedupConcat a.impp b.impp ∧
    (merge_from a b p).lang = specDedupConcat a.lang b.lang ∧
    (merge_from a b p).adr = specDedupConcat a.adr b.adr ∧
    (merge_from a b p).org = specDedupConcat a.org b.org ∧
    (merge_from a b p).member = specDedupConcat a.member b.member ∧
    (merge_from a b p).categories = specDedupConcat a.categories b.categories ∧
    (merge_from a b p).url = specDedupConcat a.url b.url ∧
    (merge_from a b p).key = specDedupConcat a.key b.key :=
  ⟨mergeList_eq_specDedupConcat a.nickname b.nickname,
   mergeList_eq_specDedupConcat a.email b.email,
   mergeList_eq_specDedupConcat a.tel b.tel,
   mergeList_eq_specDedupConcat a.impp b.impp,
   mergeList_eq_specDedupConcat a.lang b.lang,
   mergeList_eq_specDedupConcat a.adr b.adr,
   mergeList_eq_specDedupConcat a.org b.org,
   mergeList_eq_specDedupConcat a.member b.member,
   mergeList_eq_specDedupConcat a.categories b.categories,
   mergeList_eq_specDedupConcat a.url b.url,
   mergeList_eq_specDedupConcat a.key b.key⟩

/-! ## C8: relationship-reference merge and uri-less entries -/

/-- **C8 counterexample.**  Merging two relationship references that
both lack a target URI (`uri` is the empty string, the dataclass's
no-URI encoding): only the first is retained — the uri-keyed
deduplication applies the empty uri like any other key, because the
`hasattr(r, 'uri')` guard is always true for the `Related` dataclass.
The claim said both must be retained. -/
theorem merge_related_dedups_empty_uri :
    (merge_from { fn := "A" }
        { fn := "B", related := [⟨"", [], some "X", none⟩, ⟨"", [], some "Y", none⟩] }
        true).related
      = [⟨"", [], some "X", none⟩] := by decide

/-- **C8 amended.** In the relationship-reference merge, an entry of
`other` is appended iff its uri — with an absent target URI encoded as
the empty string, keyed like any other value — occurs neither among
`self`'s uris nor among the uris of entries already appended from
`other`; entries whose uri is already present are dropped, so in
particular two URI-less entries deduplicate to the first. -/
theorem merge_related_uri_dedup (a b : Contact) (p : Bool) :
    (merge_from a b p).related
      = a.related ++ relatedNovel (a.related.map (fun r => r.uri)) b.related :=
  mergeRelated_eq a.related b.related

/-! ## C7: node-attribute encoding of the JSON codec -/

/-- All list/map-valued node attributes of a serialized contact are
string-kinded (JSON-text-encoded), not native JSON structures. -/
def attrsStringEncoded (s : SerializedContact) : Bool :=
  s.email.all JValue.isString && s.tel.all JValue.isString && s.adr.all JValue.isString &&
  s.org.all JValue.isString && s.categories.all JValue.isString && s.url.all JValue.isString &&
  s.nickname.all JValue.isString && s.geo.all JValue.isString && s.related.all JValue.isString

theorem serList_all_isString (l : List String) :
    (serList l).all JValue.isString = true := by
  unfold serList
  split <;> rfl

theorem serGeo_all_isString (g : Option (PyFloat × PyFloat)) :
    (serGeo g).all JValue.isString = true := by
  match g with
  | none => rfl
  | some (a, b) => rfl

theorem serRelated_all_isString (l : List Related) :
    (serRelated l).all JValue.isString = true := by
  unfold serRelated
  split <;> rfl

theorem attrsStringEncoded_serialize (c : Contact) :
    attrsStringEncoded (serialize_contact c) = true := by
  unfold attrsStringEncoded
  rw [show (serialize_contact c).email = serList c.email from rfl,
      show (serialize_contact c).tel = serList c.tel from rfl,
      show (serialize_contact c).adr = serList c.adr from rfl,
      show (serialize_contact c).org = serList c.org from rfl,
      show (serialize_contact c).categories = serList c.categories from rfl,
      show (serialize_contact c).url = serList c.url from rfl,
      show (serialize_contact c).nickname = serList c.nickname from rfl,
      show (serialize_contact c).geo = serGeo c.geo from rfl,
      show (serialize_contact c).related = serRelated c.related from rfl]
  simp only [serList_all_isString, serGeo_all_isString, serRelated_all_isString, Bool.and_self]

/-- Concrete one-contact store for the C7 counterexample. -/
def gC7 : ContactGraph :=
  ⟨[("u", { fn := "A", uid := some "u", email := ["a@b"] })], ["u"], []⟩

/-- **C7 counterexample.** In the file written by the JSON codec, the
`email` node attribute is the JSON-text *string* `json.dumps(["a@b"])`
(a string-kinded value), not the native JSON array the claim
describes: `_save_json` reuses `_serialize_contact`, which double-
encodes list fields for both codecs. -/
theorem save_json_nodes_double_encoded :
    (save_json gC7).nodes.map (fun nd => nd.attributes.email)
      = [some (JValue.jdumpsStr (JValue.jarr [JValue.jstr "a@b"]))] ∧
    (save_json gC7).nodes.map (fun nd => nd.attributes.email.map JValue.isString)
      = [some true] := by
  exact ⟨rfl, rfl⟩

/-- **C7 amended.** Both codecs write node attributes via
`_serialize_contact`, so every list/map-valued node attribute in the
JSON file is a JSON-text-encoded string, never a native structure; only
the *edge* attributes of the JSON codec are copied natively. -/
theorem save_json_encoding (g : ContactGraph) :
    (∀ nd ∈ (save_json g).nodes, attrsStringEncoded nd.attributes = true) ∧
    (save_json g).edges.map (fun e => (e.types, e.directional, e.metadata))
      = g.edges.map (fun e => (e.types, e.directional, e.metadata)) := by
  constructor
  · intro nd hnd
    simp only [save_json, List.mem_map] at hnd
    obtain ⟨p, hp, rfl⟩ := hnd
    exact attrsStringEncoded_serialize p.2
  · simp [save_json]

/-- Witness for C7 amended at the concrete one-contact store. -/
theorem save_json_encoding_witness :
    attrsStringEncoded (FileNode.mk "u" (serialize_contact
        { fn := "A", uid := some "u", email := ["a@b"] })).attributes = true ∧
    (save_json gC7).edges.map (fun e => (e.types, e.directional, e.metadata))
      = gC7.edges.map (fun e => (e.types, e.directional, e.metadata)) :=
  ⟨(save_json_encoding gC7).1 _ (List.mem_singleton.mpr rfl),
   (save_json_encoding gC7).2⟩

/-! ## C9: orphaned-id detection is exact -/

theorem countP_eq_zero_of_forall {α : Type} (p : α → Bool) :
    ∀ l : List α, (∀ a ∈ l, p a = false) → l.countP p = 0 := by
  intro l
  induction l with
  | nil => intro _; rfl
  | cons a rest ih =>
      intro h
      rw [List.countP_cons, h a (List.mem_cons_self a rest), if_neg (by simp)]
      exact Nat.add_zero _ ▸ ih (fun b hb => h b (List.mem_cons_of_mem a hb))

theorem countP_ext {α : Type} (p q : α → Bool) :
    ∀ l : List α, (∀ a ∈ l, p a = q a) → l.countP p = l.countP q := by
  intro l
  induction l with
  | nil => intro _; rfl
  | cons a rest ih =>
      intro h
      rw [List.countP_cons, List.countP_cons, h a (List.mem_cons_self a rest),
        ih (fun b hb => h b (List.mem_cons_of_mem a hb))]

theorem countP_filterMap_eq {α β : Type} (f : α → Option β) (p : β → Bool) :
    ∀ l : List α, (l.filterMap f).countP p
      = l.countP (fun a => ((f a).map p).getD false) := by
  intro l
  induction l with
  | nil => rfl
  | cons a rest ih =>
      cases hf : f a with
      | none => simp [List.filterMap_cons, hf, List.countP_cons, ih]
      | some b => simp [List.filterMap_cons, hf, List.countP_cons, ih]

theorem dictSet_keys_present {α : Type} (d : List (String × α)) (k : String) (v : α)
    (h : d.any (fun p => p.1 = k) = true) :
    (dictSet d k v).map Prod.fst = d.map Prod.fst := by
  unfold dictSet
  rw [if_pos h, List.map_map]
  refine List.map_congr_left ?_
  intro p _
  by_cases hp : p.1 = k
  · simp [hp]
  · simp [hp]

theorem dictSet_keys_new {α : Type} (d : List (String × α)) (k : String) (v : α)
    (h : d.any (fun p => p.1 = k) = false) :
    (dictSet d k v).map Prod.fst = d.map Prod.fst ++ [k] := by
  unfold dictSet
  rw [if_neg (by simp [h]), List.map_append]
  rfl

theorem dictSet_keys_nodup {α : Type} (d : List (String × α)) (k : String) (v : α)
    (h : (d.map Prod.fst).Nodup) : ((dictSet d k v).map Prod.fst).Nodup := by
  cases ha : d.any (fun p => p.1 = k) with
  | true => rw [dictSet_keys_present d k v ha]; exact h
  | false =>
      rw [dictSet_keys_new d k v ha]
      have hk : k ∉ d.map Prod.fst := (anyKey_eq_false_iff d k).mp ha
      simp [List.nodup_append, h, hk]

theorem byUid_keys_nodup_aux :
    ∀ (cs : List Contact) (acc : List (String × Contact)),
      (acc.map Prod.fst).Nodup →
      ((cs.foldl
        (fun acc c =>
          match c.uid with
          | some u => if u = "" then acc else dictSet acc u c
          | none => acc) acc).map Prod.fst).Nodup := by
  intro cs
  induction cs with
  | nil => intro acc h; exact h
  | cons c rest ih =>
      intro acc h
      rw [List.foldl_cons]
      refine ih _ ?_
      show ((match c.uid with
        | some u => if u = "" then acc else dictSet acc u c
        | none => acc).map Prod.fst).Nodup
      cases c.uid with
      | none => exact h
      | some u =>
          show ((if u = "" then acc else dictSet acc u c).map Prod.fst).Nodup
          by_cases hu : u = ""
          · rw [if_pos hu]; exact h
          · rw [if_neg hu]; exact dictSet_keys_nodup acc u c h

theorem byUid_keys_nodup (cs : List Contact) : ((byUid cs).map Prod.fst).Nodup :=
  byUid_keys_nodup_aux cs [] List.nodup_nil

theorem countP_key_eq_one {α : Type} (u : String) :
    ∀ d : List (String × α), (d.map Prod.fst).Nodup →
      d.any (fun p => p.1 = u) = true →
      d.countP (fun p => decide (p.1 = u)) = 1 := by
  intro d
  induction d with
  | nil => intro _ h; simp at h
  | cons p rest ih =>
      intro hn hmem
      rw [List.countP_cons]
      by_cases hpu : p.1 = u
      · rw [if_pos (by simpa using hpu)]
        have hrest : rest.countP (fun q => decide (q.1 = u)) = 0 := by
          refine countP_eq_zero_of_forall _ rest (fun b hb => ?_)
          simp only [List.map_cons, List.nodup_cons] at hn
          have hb2 : b.1 ≠ u := by
            intro hc
            exact hn.1 (hpu ▸ hc ▸ List.mem_map_of_mem Prod.fst hb)
          simpa using hb2
        rw [hrest]
      · rw [if_neg (by simpa using hpu), Nat.add_zero]
        have hmem2 : rest.any (fun q => q.1 = u) = true := by
          simp only [List.any_cons, Bool.or_eq_true, decide_eq_true_eq] at hmem
          rcases hmem with h | h
          · exact absurd h hpu
          · exact h
        simp only [List.map_cons, List.nodup_cons] at hn
        exact ih hn.2 hmem2

/-- Is this inconsistency the `orphaned`/`warning` record for id `u`? -/
def orphanPred (u : String) (i : Inconsistency) : Bool :=
  decide (i.type = "orphaned" ∧ i.target = some u ∧ i.severity = "warning")

theorem countP_orphanPred_missing (u src mid : String)
    (G F : List (String × Contact)) :
    (missingIncs src mid G F).countP (orphanPred u) = 0 := by
  unfold missingIncs
  rw [countP_filterMap_eq]
  refine countP_eq_zero_of_forall _ _ (fun a _ => ?_)
  by_cases h : F.any (fun q => q.1 = a.1)
  · simp [h]
  · simp [h, orphanPred]

theorem countP_orphanPred_outdated (u src mid : String)
    (G F : List (String × Contact)) :
    (outdatedIncs src mid G F).countP (orphanPred u) = 0 := by
  unfold outdatedIncs
  rw [countP_filterMap_eq]
  refine countP_eq_zero_of_forall _ _ (fun a _ => ?_)
  cases hd : dictGet F a.1 with
  | none => simp
  | some fc =>
      cases hg : a.2.rev with
      | none => simp [hg]
      | some gr =>
          cases hf : fc.rev with
          | none => simp [hg, hf]
          | some fr =>
              by_cases hne : gr ≠ fr
              · simp [hg, hf, hne, orphanPred]
              · simp [hg, hf, hne]

theorem countP_orphanPred_orphaned (u src pre mid : String)
    (G F : List (String × Contact))
    (hn : (F.map Prod.fst).Nodup)
    (hin : F.any (fun p => p.1 = u) = true)
    (hout : G.any (fun p => p.1 = u) = false) :
    (orphanedIncs src pre mid G F).countP (orphanPred u) = 1 := by
  unfold orphanedIncs
  rw [countP_filterMap_eq, countP_ext _ (fun p => decide (p.1 = u)) _ ?_]
  · exact countP_key_eq_one u F hn hin
  · intro a _
    by_cases hau : a.1 = u
    · rw [hau, hout]
      simp [orphanPred, hau]
    · by_cases h : G.any (fun q => q.1 = a.1)
      · simp [h, hau]
      · simp [h, orphanPred, hau]

/-- **C9.** For every store and folder population (the folder given as
its already-imported contact list) and every id `u` present in the
folder's id-keyed map but absent from the Graph Store's id-keyed map,
the consistency check produces exactly one inconsistency of type
`orphaned` with severity `warning` targeting `u` — for the VCF folder
and the Markdown folder alike. -/
theorem consistency_orphaned_unique (g : ContactGraph) (folder : List Contact) (u : String)
    (hin : (byUid folder).any (fun p => p.1 = u) = true)
    (hout : (byUid (get_all_contacts g)).any (fun p => p.1 = u) = false) :
    (check_graph_vcf_consistency g folder).countP (orphanPred u) = 1 ∧
    (check_graph_markdown_consistency g folder).countP (orphanPred u) = 1 := by
  constructor
  · show (missingIncs "vcf_folder" ") exists in graph but not in VCF folder"
        (byUid (get_all_contacts g)) (byUid folder)
      ++ orphanedIncs "vcf_folder" "VCF file for \"" ") exists but contact not in graph"
          (byUid (get_all_contacts g)) (byUid folder)
      ++ outdatedIncs "vcf_folder" "\" has a REV mismatch between VCF and graph"
          (byUid (get_all_contacts g)) (byUid folder)).countP (orphanPred u) = 1
    rw [List.countP_append, List.countP_append, countP_orphanPred_missing,
      countP_orphanPred_outdated,
      countP_orphanPred_orphaned u _ _ _ _ _ (byUid_keys_nodup folder) hin hout]
  · show (missingIncs "markdown_folder" ") exists in graph but not in Markdown folder"
        (byUid (get_all_contacts g)) (byUid folder)
      ++ orphanedIncs "markdown_folder" "Markdown file for \""
          ") exists but contact not in graph"
          (byUid (get_all_contacts g)) (byUid folder)
      ++ outdatedIncs "markdown_folder" "\" has a REV mismatch between Markdown and graph"
          (byUid (get_all_contacts g)) (byUid folder)).countP (orphanPred u) = 1
    rw [List.countP_append, List.countP_append, countP_orphanPred_missing,
      countP_orphanPred_outdated,
      countP_orphanPred_orphaned u _ _ _ _ _ (byUid_keys_nodup folder) hin hout]

/-- Witness for C9: an empty store against a one-contact folder. -/
theorem consistency_orphaned_unique_witness :
    (check_graph_vcf_consistency ⟨[], [], []⟩ [{ fn := "O", uid := some "w" }]).countP
        (orphanPred "w") = 1 ∧
    (check_graph_markdown_consistency ⟨[], [], []⟩ [{ fn := "O", uid := some "w" }]).countP
        (orphanPred "w") = 1 :=
  consistency_orphaned_unique ⟨[], [], []⟩ [{ fn := "O", uid := some "w" }] "w"
    (by decide) (by decide)

/-! ## C1: graph round-trip -/

theorem asString_map_jstr (l : List String) :
    (l.map JValue.jstr).map JValue.asString = l := by
  induction l with
  | nil => rfl
  | cons x xs ih => simp [JValue.asString, ih]

theorem serStrOpt_round (v : Option String) (h : v ≠ some "") :
    (serStrOpt v).map JValue.asString = v := by
  match v with
  | none => rfl
  | some s =>
      have hs : s ≠ "" := fun hc => h (by rw [hc])
      show Option.map JValue.asString (if s = "" then none else some (JValue.jstr s)) = some s
      rw [if_neg hs]
      rfl

theorem deserListField_serList (l : List String) : deserListField (serList l) = l := by
  unfold serList
  by_cases h : l = []
  · rw [if_pos h, h]; rfl
  · rw [if_neg h]
    show JValue.asStringList (.jarr (l.map .jstr)) = l
    unfold JValue.asStringList
    exact asString_map_jstr l

theorem deserRevField_round (r : Option DateTime) :
    deserRevField (r.map .jisoStr) = r := by
  match r with
  | none => rfl
  | some d => rfl

theorem deserGeoField_serGeo (g : Option (PyFloat × PyFloat)) :
    deserGeoField (serGeo g) = g := by
  match g with
  | none => rfl
  | some (a, b) => rfl

theorem relFromJson_relToJson (r : Related) : relFromJson (relToJson r) = r := by
  obtain ⟨u, t, tv, pf⟩ := r
  have ht : JValue.asStringList (.jarr (t.map .jstr)) = t := by
    unfold JValue.asStringList
    exact asString_map_jstr t
  cases tv with
  | none =>
      cases pf with
      | none =>
          show Related.mk u (JValue.asStringList (.jarr (t.map .jstr))) none none = _
          rw [ht]
      | some n =>
          show Related.mk u (JValue.asStringList (.jarr (t.map .jstr))) none (some n) = _
          rw [ht]
  | some s =>
      cases pf with
      | none =>
          show Related.mk u (JValue.asStringList (.jarr (t.map .jstr))) (some s) none = _
          rw [ht]
      | some n =>
          show Related.mk u (JValue.asStringList (.jarr (t.map .jstr))) (some s) (some n) = _
          rw [ht]

theorem deserRelatedField_serRelated (l : List Related) :
    deserRelatedField (serRelated l) = l := by
  unfold serRelated
  by_cases h : l = []
  · rw [if_pos h, h]; rfl
  · rw [if_neg h]
    show (l.map relToJson).map relFromJson = l
    rw [List.map_map]
    have : ∀ x ∈ l, (relFromJson ∘ relToJson) x = id x := fun x _ => relFromJson_relToJson x
    rw [List.map_congr_left this, List.map_id]

/-- The entity as reconstructed by a round trip: the fields
`_serialize_contact` does not write come back at their defaults. -/
def stripContact (c : Contact) : Contact :=
  { c with
    impp := [], lang := [], member := [], key := [],
    logo := none, prodid := none, sound := none,
    fburl := none, caladruri := none, caluri := none,
    x_properties := [], clientpidmap := [] }

/-- Round-trippable entity as stored under key `u`: required fields
present and no optional scalar equal to the empty string (Python
truthiness makes an empty-string scalar indistinguishable from an
absent one at serialization time). -/
def ContactWF (u : String) (c : Contact) : Prop :=
  c.uid = some u ∧ u ≠ "" ∧ c.fn ≠ "" ∧
  c.n ≠ some "" ∧ c.title ≠ some "" ∧ c.role ≠ some "" ∧ c.note ≠ some "" ∧
  c.bday ≠ some "" ∧ c.anniversary ≠ some "" ∧ c.gender ≠ some "" ∧
  c.photo ≠ some "" ∧ c.tz ≠ some ""

theorem deserialize_serialize (u : String) (c : Contact) (h : ContactWF u c) :
    deserialize_contact u (serialize_contact c) = .ok (stripContact c) := by
  obtain ⟨huid, hune, hfn, hn, htitle, hrole, hnote, hbday, hann, hgen, hphoto, htz⟩ := h
  simp only [deserialize_contact]
  rw [show (match (serialize_contact c).fn with
      | some v => v.asString
      | none => "") = c.fn from rfl]
  rw [if_neg hfn]
  refine congrArg Except.ok ?_
  have hu : some (match (serialize_contact c).uid with
      | some v => v.asString
      | none => u) = c.uid := by
    rw [show (serialize_contact c).uid = serStrOpt c.uid from rfl, huid]
    show some (match (if u = "" then none else some (JValue.jstr u)) with
      | some v => v.asString
      | none => u) = some u
    rw [if_neg hune]
    rfl
  ext1
  · rfl
  · rfl
  · exact hu
  · exact serStrOpt_round c.n hn
  · exact deserListField_serList c.nickname
  · exact serStrOpt_round c.photo hphoto
  · exact serStrOpt_round c.bday hbday
  · exact serStrOpt_round c.anniversary hann
  · exact serStrOpt_round c.gender hgen
  · exact deserListField_serList c.email
  · exact deserListField_serList c.tel
  · rfl
  · rfl
  · exact deserListField_serList c.adr
  · exact serStrOpt_round c.tz htz
  · exact deserGeoField_serGeo c.geo
  · exact serStrOpt_round c.title htitle
  · exact serStrOpt_round c.role hrole
  · rfl
  · exact deserListField_serList c.org
  · rfl
  · exact deserRelatedField_serRelated c.related
  · exact deserListField_serList c.categories
  · exact serStrOpt_round c.note hnote
  · rfl
  · exact deserRevField_round c.rev
  · rfl
  · rfl
  · exact deserListField_serList c.url
  · rfl
  · rfl
  · rfl
  · rfl
  · rfl

theorem except_bind_ok {ε α β : Type} (a : α) (f : α → Except ε β) :
    (Except.ok a : Except ε α) >>= f = f a := rfl

theorem except_pure_bind {ε α β : Type} (a : α) (f : α → Except ε β) :
    (pure a : Except ε α) >>= f = f a := rfl

theorem addNode_mem (nodes : List String) (u : String) (h : u ∈ nodes) :
    addNode nodes u = nodes := by
  unfold addNode
  rw [if_pos h]

theorem addNode_new (nodes : List String) (u : String) (h : u ∉ nodes) :
    addNode nodes u = nodes ++ [u] := by
  unfold addNode
  rw [if_neg h]

theorem dictSet_new {α : Type} (d : List (String × α)) (k : String) (v : α)
    (h : k ∉ d.map Prod.fst) : dictSet d k v = d ++ [(k, v)] := by
  unfold dictSet
  have hf : d.any (fun p => p.1 = k) = false := (anyKey_eq_false_iff d k).mpr h
  rw [if_neg (by simp [hf])]

/-- Round-trippable edge attributes: the values `add_relationship`
stores (a list, a bool, a dict), characterized by the `isinstance`
tests the GraphML codec dispatches on. -/
def EdgeWF (e : Edge) : Prop :=
  e.types.isListOrDict = true ∧
  e.directional.isString = false ∧ e.directional.isListOrDict = false ∧
  e.metadata.isListOrDict = true

/-- Round-trippable store: the store invariants (node set mirrors the
contact keys, unique ids, unique edge endpoints pointing at existing
nodes) plus per-entity and per-edge round-trippability. -/
def GraphWF (g : ContactGraph) : Prop :=
  g.nodes = g.contacts.map Prod.fst ∧
  (g.contacts.map Prod.fst).Nodup ∧
  (∀ p ∈ g.contacts, ContactWF p.1 p.2) ∧
  ((g.edges.map (fun e => (e.src, e.dst))).Nodup) ∧
  (∀ e ∈ g.edges, e.src ∈ g.nodes ∧ e.dst ∈ g.nodes ∧ EdgeWF e)

/-- The store a round trip reconstructs: same ids, nodes and edges;
every entity stripped to its serialized fields. -/
def reloadResult (g : ContactGraph) : ContactGraph :=
  { contacts := g.contacts.map (fun p => (p.1, stripContact p.2))
    nodes := g.nodes
    edges := g.edges }

theorem load_nodes_fold :
    ∀ (ps : List (String × Contact)) (g0 : ContactGraph),
      (∀ p ∈ ps, ContactWF p.1 p.2) →
      (∀ p ∈ ps, p.1 ∉ g0.contacts.map Prod.fst) →
      ((ps.map Prod.fst).Nodup) →
      g0.nodes = g0.contacts.map Prod.fst →
      ((ps.map (fun p => FileNode.mk p.1 (serialize_contact p.2))).foldlM
        (fun (g : ContactGraph) nd => do
          let c ← deserialize_contact nd.key nd.attributes
          pure { g with contacts := dictSet g.contacts nd.key c, nodes := addNode g.nodes nd.key })
        g0)
      = .ok (ContactGraph.mk (g0.contacts ++ ps.map (fun p => (p.1, stripContact p.2)))
          (g0.nodes ++ ps.map Prod.fst) g0.edges) := by
  intro ps
  induction ps with
  | nil =>
      intro g0 _ _ _ _
      simp only [List.map_nil, List.foldlM_nil, List.append_nil]
      rfl
  | cons p ps ih =>
      intro g0 hwf hnew hnd hninv
      simp only [List.map_cons, List.foldlM_cons]
      rw [show deserialize_contact (FileNode.mk p.1 (serialize_contact p.2)).key
            (FileNode.mk p.1 (serialize_contact p.2)).attributes
          = deserialize_contact p.1 (serialize_contact p.2) from rfl,
        deserialize_serialize p.1 p.2 (hwf p (List.mem_cons_self p ps))]
      simp only [except_bind_ok]
      have hk : p.1 ∉ g0.contacts.map Prod.fst := hnew p (List.mem_cons_self p ps)
      have hkn : p.1 ∉ g0.nodes := by rw [hninv]; exact hk
      rw [show dictSet g0.contacts (FileNode.mk p.1 (serialize_contact p.2)).key
            (stripContact p.2) = dictSet g0.contacts p.1 (stripContact p.2) from rfl,
        dictSet_new g0.contacts p.1 (stripContact p.2) hk,
        show addNode g0.nodes (FileNode.mk p.1 (serialize_contact p.2)).key
          = addNode g0.nodes p.1 from rfl,
        addNode_new g0.nodes p.1 hkn]
      simp only [except_pure_bind]
      simp only [List.map_cons, List.nodup_cons] at hnd
      rw [ih { g0 with
          contacts := g0.contacts ++ [(p.1, stripContact p.2)]
          nodes := g0.nodes ++ [p.1] }
        (fun q hq => hwf q (List.mem_cons_of_mem p hq))
        (by
          intro q hq
          simp only [List.map_append, List.mem_append, List.map_cons, List.map_nil,
            List.mem_singleton, not_or]
          refine ⟨hnew q (List.mem_cons_of_mem p hq), ?_⟩
          intro hc
          exact hnd.1 (hc ▸ List.mem_map_of_mem Prod.fst hq)
        )
        hnd.2
        (by
          show g0.nodes ++ [p.1] = (g0.contacts ++ [(p.1, stripContact p.2)]).map Prod.fst
          rw [List.map_append, hninv]
          rfl)]
      simp [List.append_assoc]

theorem load_json_edges_fold :
    ∀ (es : List Edge) (g1 : ContactGraph),
      (∀ e ∈ es, e.src ∈ g1.nodes ∧ e.dst ∈ g1.nodes) →
      (∀ e ∈ es, ∀ e0 ∈ g1.edges, ¬(e0.src = e.src ∧ e0.dst = e.dst)) →
      ((es.map (fun e => (e.src, e.dst))).Nodup) →
      ((es.map (fun e =>
          JsonEdge.mk (e.src ++ "->" ++ e.dst) e.src e.dst e.types e.directional e.metadata)).foldl
        (fun g e => addEdge g ⟨e.source, e.target, e.types, e.directional, e.metadata⟩) g1)
      = { g1 with edges := g1.edges ++ es } := by
  intro es
  induction es with
  | nil =>
      intro g1 _ _ _
      simp only [List.map_nil, List.foldl_nil, List.append_nil]
  | cons e es ih =>
      intro g1 hmem hnew hnd
      simp only [List.map_cons, List.foldl_cons]
      have hstep : addEdge g1
          ⟨(JsonEdge.mk (e.src ++ "->" ++ e.dst) e.src e.dst e.types e.directional e.metadata).source,
           (JsonEdge.mk (e.src ++ "->" ++ e.dst) e.src e.dst e.types e.directional e.metadata).target,
           (JsonEdge.mk (e.src ++ "->" ++ e.dst) e.src e.dst e.types e.directional e.metadata).types,
           (JsonEdge.mk (e.src ++ "->" ++ e.dst) e.src e.dst e.types e.directional e.metadata).directional,
           (JsonEdge.mk (e.src ++ "->" ++ e.dst) e.src e.dst e.types e.directional e.metadata).metadata⟩
          = { g1 with edges := g1.edges ++ [e] } := by
        show addEdge g1 e = _
        unfold addEdge
        obtain ⟨hs, hd⟩ := hmem e (List.mem_cons_self e es)
        have hany : g1.edges.any (fun e0 => e0.src = e.src ∧ e0.dst = e.dst) = false := by
          rw [List.any_eq_false]
          intro e0 he0
          simpa using hnew e (List.mem_cons_self e es) e0 he0
        rw [addNode_mem _ _ hs, addNode_mem _ _ hd, if_neg (by rw [hany]; simp)]
      rw [hstep]
      simp only [List.map_cons, List.nodup_cons] at hnd
      rw [ih { g1 with edges := g1.edges ++ [e] }
        (fun q hq => hmem q (List.mem_cons_of_mem e hq))
        (by
          intro q hq e0 he0
          rcases List.mem_append.mp he0 with h0 | h0
          · exact hnew q (List.mem_cons_of_mem e hq) e0 h0
          · rw [List.mem_singleton] at h0
            subst h0
            intro hc
            exact hnd.1 (by
              rw [hc.1, hc.2]
              exact List.mem_map_of_mem (fun e => (e.src, e.dst)) hq)
        )
        hnd.2]
      simp [List.append_assoc]

theorem gml_round_listdict (v : JValue) (h : v.isListOrDict = true) :
    gmlDecodeVal (gmlEncodeVal v) = v := by
  have e1 : gmlEncodeVal v = .jdumpsStr v := by
    unfold gmlEncodeVal
    rw [if_pos h]
  rw [e1]
  rfl

theorem gml_round_scalar (v : JValue) (h1 : v.isString = false) (h2 : v.isListOrDict = false) :
    gmlDecodeVal (gmlEncodeVal v) = v := by
  have e1 : gmlEncodeVal v = v := by
    unfold gmlEncodeVal
    rw [if_neg (by simp [h2])]
  rw [e1]
  unfold gmlDecodeVal
  rw [if_neg (by simp [h1])]

theorem load_graphml_edges_fold :
    ∀ (es : List Edge) (g1 : ContactGraph),
      (∀ e ∈ es, e.src ∈ g1.nodes ∧ e.dst ∈ g1.nodes) →
      (∀ e ∈ es, ∀ e0 ∈ g1.edges, ¬(e0.src = e.src ∧ e0.dst = e.dst)) →
      ((es.map (fun e => (e.src, e.dst))).Nodup) →
      (∀ e ∈ es, EdgeWF e) →
      ((es.map (fun e =>
          GmlEdge.mk e.src e.dst (gmlEncodeVal e.types) (gmlEncodeVal e.directional)
            (gmlEncodeVal e.metadata))).foldl
        (fun g e => addEdge g ⟨e.source, e.target, gmlDecodeVal e.types, gmlDecodeVal e.directional,
          gmlDecodeVal e.metadata⟩) g1)
      = { g1 with edges := g1.edges ++ es } := by
  intro es
  induction es with
  | nil =>
      intro g1 _ _ _ _
      simp only [List.map_nil, List.foldl_nil, List.append_nil]
  | cons e es ih =>
      intro g1 hmem hnew hnd hwf
      simp only [List.map_cons, List.foldl_cons]
      obtain ⟨w1, w2, w3, w4⟩ := hwf e (List.mem_cons_self e es)
      have hstep : addEdge g1
          ⟨e.src, e.dst, gmlDecodeVal (gmlEncodeVal e.types),
            gmlDecodeVal (gmlEncodeVal e.directional), gmlDecodeVal (gmlEncodeVal e.metadata)⟩
          = { g1 with edges := g1.edges ++ [e] } := by
        rw [gml_round_listdict e.types w1, gml_round_scalar e.directional w2 w3,
          gml_round_listdict e.metadata w4]
        show addEdge g1 e = _
        unfold addEdge
        obtain ⟨hs, hd⟩ := hmem e (List.mem_cons_self e es)
        have hany : g1.edges.any (fun e0 => e0.src = e.src ∧ e0.dst = e.dst) = false := by
          rw [List.any_eq_false]
          intro e0 he0
          simpa using hnew e (List.mem_cons_self e es) e0 he0
        rw [addNode_mem _ _ hs, addNode_mem _ _ hd, if_neg (by rw [hany]; simp)]
      rw [hstep]
      simp only [List.map_cons, List.nodup_cons] at hnd
      rw [ih { g1 with edges := g1.edges ++ [e] }
        (fun q hq => hmem q (List.mem_cons_of_mem e hq))
        (by
          intro q hq e0 he0
          rcases List.mem_append.mp he0 with h0 | h0
          · exact hnew q (List.mem_cons_of_mem e hq) e0 h0
          · rw [List.mem_singleton] at h0
            subst h0
            intro hc
            exact hnd.1 (by
              rw [hc.1, hc.2]
              exact List.mem_map_of_mem (fun e => (e.src, e.dst)) hq)
        )
        hnd.2
        (fun q hq => hwf q (List.mem_cons_of_mem e hq))]
      simp [List.append_assoc]

/-- **C1 amended.** For every well-formed store (ids unique and
mirrored by the node set, entities carrying their key as a non-empty
uid, non-empty display name, no empty-string optional scalar, edges
with unique endpoint pairs over existing nodes and list/bool/dict
attribute values), saving with either codec and loading back yields
exactly the store with every entity equal to the original on all
serialized fields (uid, fn, version, n, rev at datetime equality, the
seven JSON-encoded lists, the scalar strings, geo as the float pair,
related with original uri/types/text/pref) and with the fields the
serializer never writes (impp, lang, member, key, logo, prodid, sound,
fburl, caladruri, caluri, x_properties, clientpidmap) reset to empty;
the edge set is reproduced per (source, target, types, directional,
metadata). -/
theorem graph_round_trip (g : ContactGraph) (h : GraphWF g) :
    load_json (save_json g) = .ok (reloadResult g) ∧
    load_graphml (save_graphml g) = .ok (reloadResult g) := by
  obtain ⟨hninv, hnd, hcwf, hend, hewf⟩ := h
  have hnodesfold := load_nodes_fold g.contacts ⟨[], [], []⟩ hcwf (by simp) hnd rfl
  constructor
  · simp only [load_json, save_json]
    rw [hnodesfold]
    simp only [except_bind_ok, List.nil_append]
    have hedges := load_json_edges_fold g.edges
      (ContactGraph.mk (g.contacts.map (fun p => (p.1, stripContact p.2)))
        (g.contacts.map Prod.fst) [])
      (by
        intro e he
        have h3 := hewf e he
        rw [hninv] at h3
        exact ⟨h3.1, h3.2.1⟩)
      (by intro e _ e0 he0; simp at he0)
      hend
    rw [hedges]
    simp only [reloadResult, List.nil_append]
    rw [hninv]
    rfl
  · simp only [load_graphml, save_graphml]
    rw [hnodesfold]
    simp only [except_bind_ok, List.nil_append]
    have hedges := load_graphml_edges_fold g.edges
      (ContactGraph.mk (g.contacts.map (fun p => (p.1, stripContact p.2)))
        (g.contacts.map Prod.fst) [])
      (by
        intro e he
        have h3 := hewf e he
        rw [hninv] at h3
        exact ⟨h3.1, h3.2.1⟩)
      (by intro e _ e0 he0; simp at he0)
      hend
      (fun e he => (hewf e he).2.2)
    rw [hedges]
    simp only [reloadResult, List.nil_append]
    rw [hninv]
    rfl

/-- Concrete two-contact, one-edge store for the C1 witness. -/
def gRT : ContactGraph :=
  ⟨[("u1", { fn := "A", uid := some "u1", email := ["a@b"], rev := some 5,
             geo := some (⟨1⟩, ⟨2⟩), related := [⟨"urn:uuid:u2", ["friend"], none, some 1⟩] }),
    ("u2", { fn := "B", uid := some "u2" })],
   ["u1", "u2"],
   [⟨"u1", "u2", .jarr [.jstr "friend"], .jbool true, .jobj []⟩]⟩

/-- Witness for C1 amended at a concrete store. -/
theorem graph_round_trip_witness :
    GraphWF gRT ∧
    (load_json (save_json gRT) = .ok (reloadResult gRT) ∧
     load_graphml (save_graphml gRT) = .ok (reloadResult gRT)) :=
  ⟨by unfold GraphWF ContactWF EdgeWF; decide,
   graph_round_trip gRT (by unfold GraphWF ContactWF EdgeWF; decide)⟩

/-- **C1 counterexample.** A store whose entity has a populated `key`
(public keys) field — a required-fields-valid population — does not
round trip: `_serialize_contact` never writes `key` (nor impp, lang,
member, logo, prodid, sound, fburl, caladruri, caluri, x_properties,
clientpidmap), so the reloaded entity set is not equal to the original
in every populated field. -/
theorem round_trip_drops_key_field :
    (⟨[("u", { fn := "A", uid := some "u", key := ["k"] })], ["u"],
        []⟩ : ContactGraph).contacts.map (fun p => p.2.key) = [["k"]] ∧
    (load_json (save_json (⟨[("u", { fn := "A", uid := some "u", key := ["k"] })], ["u"],
        []⟩ : ContactGraph))).map (fun g2 => g2.contacts.map (fun p => p.2.key))
      = .ok [[]] :=
  ⟨rfl, rfl⟩

end PPL
